import Mathlib

/-!
Verification of the async-curl dispatcher core (src/actor.rs, src/async_curl.rs)
against its design specification.

The transfer engine (libcurl's easy/multi interfaces) is an external
collaborator; it is modelled here as a script of engine responses that the
embedded loops consume.  The response sink (response_handler.rs), the error
enums (error.rs, async_curl_error.rs) and the channel primitives (tokio) are
not part of the two source files; where they decide a claim they are modelled
from the specification, as noted on each definition.
-/

deriving instance DecidableEq for Except

namespace AsyncCurlSpec

/-- Model of a libcurl easy-interface error (external collaborator `curl::Error`),
identified by its numeric code. -/
structure CurlError where
  code : Nat
deriving DecidableEq

/-- Model of a libcurl multi-interface error (external collaborator
`curl::MultiError`).  `isCallPerform` models `MultiError::is_call_perform`,
the transient please-call-perform-again condition. -/
structure MultiError where
  code : Nat
  isCallPerform : Bool
deriving DecidableEq

/-- Modelled from the spec: response_handler.rs is not under src/.  Per spec
section 3 the response sink is a mutable accumulator into which the engine
writes the response bytes. -/
structure ResponseHandler where
  data : List Nat
deriving DecidableEq

/-- Model of `curl::easy::Easy2<H>`: an opaque transfer configuration, the
user-supplied response sink (handler), and the response status code the
engine sets on completion (read back via `response_code()`). -/
structure Easy2 (H : Type) where
  config : Nat
  handler : H
  responseCode : Option Nat
deriving DecidableEq

/-- Modelled from the spec: error.rs (the `Error<H>` enum of the actor module)
is not under src/.  Variants follow the section 7 taxonomy restricted to the
conversion sites visible in actor.rs: queue-send failure (line 145), reply-recv
failure (line 146), easy-engine errors (line 193, non-multi build), and
multi-engine errors (lines 163, 165, 174, 184, multi build).  No visible code
constructs a thread-join variant; actor.rs:126 logs join errors instead. -/
inductive Error where
  | queueClosed
  | replyChannelClosed
  | engineCurl (e : CurlError)
  | engineMulti (e : MultiError)
deriving DecidableEq

/-- Modelled from the spec: async_curl_error.rs (the `AsyncCurlError` enum) is
not under src/.  Variants follow the section 7 taxonomy restricted to the
conversion sites visible in async_curl.rs: queue-send failure (lines 70-72),
reply-recv failure (line 73), and multi-engine errors (lines 85, 87, 88, 91).
async_curl.rs never performs an easy-level transfer, so no easy-engine
variant is reachable there. -/
inductive AsyncCurlError where
  | queueClosed
  | replyChannelClosed
  | engineMulti (e : MultiError)
deriving DecidableEq

/-- Kind tags used to compare the two error taxonomies. -/
inductive ErrKind where
  | queueClosed
  | replyChannelClosed
  | engineCurl
  | engineMulti
deriving DecidableEq

/-- Kind of an actor-module error value. -/
def Error.kind : Error → ErrKind
  | .queueClosed => .queueClosed
  | .replyChannelClosed => .replyChannelClosed
  | .engineCurl _ => .engineCurl
  | .engineMulti _ => .engineMulti

/-- Kind of an async_curl-module error value. -/
def AsyncCurlError.kind : AsyncCurlError → ErrKind
  | .queueClosed => .queueClosed
  | .replyChannelClosed => .replyChannelClosed
  | .engineMulti _ => .engineMulti

/-- Outcome the external network produces for one configured transfer
(external collaborator): either the response bytes plus status, or an
easy-engine error. -/
inductive TransferOutcome where
  | success (bytes : List Nat) (status : Nat)
  | failure (e : CurlError)
deriving DecidableEq

/-- Model of `Easy2::perform` (external engine call used by actor.rs:193):
mutates the descriptor's sink in place and reports `Result<(), curl::Error>`.
On success the engine appends the response bytes to the sink and records the
status code; on failure the descriptor is left as it was. -/
def Easy2.perform (e : Easy2 ResponseHandler) (out : TransferOutcome) :
    Easy2 ResponseHandler × Except CurlError Unit :=
  match out with
  | .success bytes status =>
      ({ config := e.config
         handler := ⟨e.handler.data ++ bytes⟩
         responseCode := some status }, .ok ())
  | .failure err => (e, .error err)

/-- perform_curl under cfg(not(feature = "multi")), actor.rs:189-195:
`easy2.perform().map_err(Error::from)?; Ok(easy2)` — drive the transfer to
completion synchronously and return the same descriptor. -/
def perform_curl (out : TransferOutcome) (easy2 : Easy2 ResponseHandler) :
    Except Error (Easy2 ResponseHandler) :=
  match easy2.perform out with
  | (_, .error e) => .error (Error.engineCurl e)
  | (e2, .ok ()) => .ok e2

/-- What the engine does in one successful `multi.perform()` call: the count
of still-active transfers it reports, the bytes it wrote into the registered
sink during this step, and the status it set if the transfer finished. -/
structure PerformOk where
  active : Nat
  written : List Nat
  statusSet : Option Nat
deriving DecidableEq

/-- Apply one perform step's engine effects to the registered descriptor. -/
def applyPerform (p : PerformOk) (e : Easy2 ResponseHandler) : Easy2 ResponseHandler :=
  { config := e.config
    handler := ⟨e.handler.data ++ p.written⟩
    responseCode := match p.statusSet with
      | some s => some s
      | none => e.responseCode }

/-- Engine responses consumed by one iteration of the async_curl.rs:87-89
loop: the `multi.perform()` result and, when the loop waits, the
`multi.wait(&mut [], 1s)` result (number of ready events). -/
structure MultiIter where
  perform : Except MultiError PerformOk
  wait : Except MultiError Nat
deriving DecidableEq

/-- Engine responses consumed by one iteration of the actor.rs:165-183 loop:
the `multi.perform()` result and the `multi.get_timeout()` result
(a suggested timeout in milliseconds, or none). -/
structure ActorIter where
  perform : Except MultiError PerformOk
  getTimeout : Except MultiError (Option Nat)
deriving DecidableEq

/-- Scripted behavior of the external multi engine for one transfer driven by
async_curl.rs: the `add2` outcome, the per-iteration responses, and the
`remove2` outcome. -/
structure MultiScript where
  add2 : Except MultiError Unit
  iters : List MultiIter
  remove2 : Except MultiError Unit
deriving DecidableEq

/-- Scripted behavior of the external multi engine for one transfer driven by
the multi-feature perform_curl of actor.rs. -/
structure ActorScript where
  add2 : Except MultiError Unit
  iters : List ActorIter
  remove2 : Except MultiError Unit
deriving DecidableEq

/-- Engine operations observable in the order the loops invoke them.
Durations are in milliseconds. -/
inductive MEvent where
  | add2
  | perform
  | wait (ceilingMs : Nat)
  | getTimeout
  | sleep (ms : Nat)
  | remove2
deriving DecidableEq

/-- The `while multi.perform()? > 0 { multi.wait(&mut [], 1s)?; }` loop of
async_curl.rs:87-89, interpreted over an engine script.  Returns the trace of
engine calls and: `some (.ok e)` when a perform step reported zero active
transfers, `some (.error m)` when the engine failed, `none` when the script
was exhausted while the transfer was still active. -/
def multiLoopAC : List MultiIter → Easy2 ResponseHandler →
    List MEvent × Option (Except MultiError (Easy2 ResponseHandler))
  | [], _ => ([], none)
  | it :: rest, e =>
    match it.perform with
    | .error m => ([MEvent.perform], some (.error m))
    | .ok p =>
      if p.active = 0 then
        ([MEvent.perform], some (.ok (applyPerform p e)))
      else
        match it.wait with
        | .error m => ([MEvent.perform, MEvent.wait 1000], some (.error m))
        | .ok _ =>
          (MEvent.perform :: MEvent.wait 1000 :: (multiLoopAC rest (applyPerform p e)).1,
           (multiLoopAC rest (applyPerform p e)).2)

/-- perform_curl_multi, async_curl.rs:83-92: register the descriptor with a
fresh multi engine, drive the loop, then deregister and return the completed
descriptor. -/
def perform_curl_multi (s : MultiScript) (e : Easy2 ResponseHandler) :
    List MEvent × Option (Except AsyncCurlError (Easy2 ResponseHandler)) :=
  match s.add2 with
  | .error m => ([MEvent.add2], some (.error (.engineMulti m)))
  | .ok () =>
    match (multiLoopAC s.iters e).2 with
    | none => (MEvent.add2 :: (multiLoopAC s.iters e).1, none)
    | some (.error m) =>
        (MEvent.add2 :: (multiLoopAC s.iters e).1, some (.error (.engineMulti m)))
    | some (.ok e2) =>
      match s.remove2 with
      | .error m =>
          (MEvent.add2 :: (multiLoopAC s.iters e).1 ++ [MEvent.remove2],
           some (.error (.engineMulti m)))
      | .ok () =>
          (MEvent.add2 :: (multiLoopAC s.iters e).1 ++ [MEvent.remove2],
           some (.ok e2))

/-- The `while multi.perform()? != 0` loop of the multi-feature perform_curl,
actor.rs:165-183: after each advance, query `get_timeout()`, substitute a
2-second default when none is suggested, treat an `is_call_perform` error as
a zero timeout, propagate any other error, and sleep a fixed 200 ms whenever
the computed timeout is nonzero. -/
def actorLoop : List ActorIter → Easy2 ResponseHandler →
    List MEvent × Option (Except MultiError (Easy2 ResponseHandler))
  | [], _ => ([], none)
  | it :: rest, e =>
    match it.perform with
    | .error m => ([MEvent.perform], some (.error m))
    | .ok p =>
      if p.active = 0 then
        ([MEvent.perform], some (.ok (applyPerform p e)))
      else
        match it.getTimeout with
        | .error m =>
          if m.isCallPerform then
            (MEvent.perform :: MEvent.getTimeout :: (actorLoop rest (applyPerform p e)).1,
             (actorLoop rest (applyPerform p e)).2)
          else
            ([MEvent.perform, MEvent.getTimeout], some (.error m))
        | .ok d =>
          if d.getD 2000 = 0 then
            (MEvent.perform :: MEvent.getTimeout :: (actorLoop rest (applyPerform p e)).1,
             (actorLoop rest (applyPerform p e)).2)
          else
            (MEvent.perform :: MEvent.getTimeout :: MEvent.sleep 200 ::
               (actorLoop rest (applyPerform p e)).1,
             (actorLoop rest (applyPerform p e)).2)

/-- perform_curl under cfg(feature = "multi"), actor.rs:158-185: register with
a fresh multi engine, drive the advance/sleep loop, then deregister and return
the completed descriptor. -/
def perform_curl_mt (s : ActorScript) (e : Easy2 ResponseHandler) :
    List MEvent × Option (Except Error (Easy2 ResponseHandler)) :=
  match s.add2 with
  | .error m => ([MEvent.add2], some (.error (.engineMulti m)))
  | .ok () =>
    match (actorLoop s.iters e).2 with
    | none => (MEvent.add2 :: (actorLoop s.iters e).1, none)
    | some (.error m) =>
        (MEvent.add2 :: (actorLoop s.iters e).1, some (.error (.engineMulti m)))
    | some (.ok e2) =>
      match s.remove2 with
      | .error m =>
          (MEvent.add2 :: (actorLoop s.iters e).1 ++ [MEvent.remove2],
           some (.error (.engineMulti m)))
      | .ok () =>
          (MEvent.add2 :: (actorLoop s.iters e).1 ++ [MEvent.remove2],
           some (.ok e2))

/-- Model of a tokio `mpsc::Sender` handle: cloning a sender yields a handle
on the same underlying channel, identified here by `channel`. -/
structure Sender (α : Type) where
  channel : Nat
deriving DecidableEq

/-- The request envelope, actor.rs:150-154 (async_curl.rs:77-81 is the same
shape): one descriptor paired with the sending half of its reply channel. -/
structure Request (H : Type) where
  easy2 : Easy2 H
  replySender : Nat

/-- CurlActor, actor.rs:89-95: the public cloneable handle owning the sending
half of the bounded request queue. -/
structure CurlActor (H : Type) where
  request_sender : Sender (Request H)

/-- AsyncCurl, async_curl.rs:30-35: same shape of handle, owning the sending
half of its bounded request queue. -/
structure AsyncCurl (H : Type) where
  request_sender : Sender (Request H)

/-- Clone of a CurlActor handle per `#[derive(Clone)]` (actor.rs:89):
field-wise clone, where cloning a tokio Sender shares the underlying
channel. -/
def CurlActor.clone {H : Type} (a : CurlActor H) : CurlActor H :=
  { request_sender := a.request_sender }

/-- CurlActor derives Clone (actor.rs:89: the derive attribute on the
struct). -/
def CurlActor.hasCloneImpl : Bool := true

/-- AsyncCurl has no Clone derive or impl anywhere in async_curl.rs
(the struct at lines 30-35 carries only a doc comment). -/
def AsyncCurl.hasCloneImpl : Bool := false

/-- Capacity of the actor request queue:
`mpsc::channel::<Request<H>>(1)`, actor.rs:115. -/
def CurlActor.queueCapacity : Nat := 1

/-- Capacity of the async_curl request queue:
`mpsc::channel::<Request<H>>(1)`, async_curl.rs:51. -/
def AsyncCurl.queueCapacity : Nat := 1

/-- The submit plumbing shared by both send_request bodies
(actor.rs:138-147, async_curl.rs:64-74), with the tokio channel primitives
modelled from the spec (section 3, Reply Channel and Request Queue):
the bounded-queue send fails exactly when the worker loop has terminated
(`workerAlive = false`), in which case the send error converts to the
queue-closed variant; otherwise the caller awaits the reply, and a reply
channel whose sender was dropped without sending (`reply = none`) resolves
to the reply-closed variant; a delivered reply resolves to itself. -/
def sendRequestModel (ε α : Type) (queueClosedErr replyClosedErr : ε)
    (workerAlive : Bool) (reply : Option (Except ε α)) : Except ε α :=
  if workerAlive then
    match reply with
    | none => .error replyClosedErr
    | some r => r
  else .error queueClosedErr

/-- CurlActor::send_request, actor.rs:138-147: enqueue the request
(`?` converts a send failure via From), then await the reply
(`?` converts a recv failure via From). -/
def CurlActor.send_request (workerAlive : Bool)
    (reply : Option (Except Error (Easy2 ResponseHandler)))
    (_easy2 : Easy2 ResponseHandler) : Except Error (Easy2 ResponseHandler) :=
  sendRequestModel Error (Easy2 ResponseHandler)
    Error.queueClosed Error.replyChannelClosed workerAlive reply

/-- AsyncCurl::send_request, async_curl.rs:64-74: identical plumbing with the
async_curl error type. -/
def AsyncCurl.send_request (workerAlive : Bool)
    (reply : Option (Except AsyncCurlError (Easy2 ResponseHandler)))
    (_easy2 : Easy2 ResponseHandler) : Except AsyncCurlError (Easy2 ResponseHandler) :=
  sendRequestModel AsyncCurlError (Easy2 ResponseHandler)
    AsyncCurlError.queueClosed AsyncCurlError.replyChannelClosed workerAlive reply

/-- Begin/complete markers of one job's transfer on the worker, used to state
ordering properties of the worker loop. -/
inductive JobEvent where
  | jobBegin (id : Nat)
  | jobComplete (id : Nat)
deriving DecidableEq

/-- Execution trace of the worker loop (actor.rs:116-129, async_curl.rs:52-59)
over the jobs in admission order: the loop dequeues one envelope, drives its
transfer to completion, and only then dequeues the next, so each job
contributes an adjacent begin/complete pair. -/
def workerTrace : List Nat → List JobEvent
  | [] => []
  | j :: rest => JobEvent.jobBegin j :: JobEvent.jobComplete j :: workerTrace rest

/-- One queued job as the actor worker loop sees it: the job id, the result
perform_curl produced for it, whether the submitting caller still holds the
reply receiver, and whether the spawn_blocking task joined normally
(`joins = false` models actor.rs:118-127's JoinError case: the blocking
closure panicked, dropping the reply sender unsent). -/
structure QueuedJob where
  id : Nat
  result : Except Error (Easy2 ResponseHandler)
  receiverAlive : Bool
  joins : Bool
deriving DecidableEq

/-- Observable actions of the actor worker loop for one job. -/
inductive WEvent where
  | processed (id : Nat)
  | replied (id : Nat)
  | logDroppedReceiver (id : Nat)
  | logJoinError (id : Nat)
deriving DecidableEq

/-- One iteration of the actor worker loop body, actor.rs:117-127: the
blocking task performs the transfer and sends the result; a failed reply send
(receiver dropped) is logged (actor.rs:121); a join failure is logged
(actor.rs:126).  Nothing in the body breaks the loop. -/
def workerStep (j : QueuedJob) : List WEvent :=
  if j.joins then
    WEvent.processed j.id ::
      (if j.receiverAlive then [WEvent.replied j.id]
       else [WEvent.logDroppedReceiver j.id])
  else [WEvent.logJoinError j.id]

/-- The value the actor worker pushes into a job's reply channel: the
transfer result when the blocking task ran to completion, nothing when the
task panicked (the sender is dropped unsent and the loop only logs the
JoinError, actor.rs:125-127). -/
def sentReply (j : QueuedJob) : Option (Except Error (Easy2 ResponseHandler)) :=
  if j.joins then some j.result else none

/-- The actor worker loop, actor.rs:116-129: process every queued job in
order until the queue closes. -/
def workerRun : List QueuedJob → List WEvent
  | [] => []
  | j :: rest => workerStep j ++ workerRun rest

/-- One iteration of the async_curl worker loop body, async_curl.rs:53-58:
perform the transfer inline and send the result; a failed reply send is
logged (async_curl.rs:56). -/
def workerStepAC (j : QueuedJob) : List WEvent :=
  WEvent.processed j.id ::
    (if j.receiverAlive then [WEvent.replied j.id]
     else [WEvent.logDroppedReceiver j.id])

/-- The async_curl worker loop, async_curl.rs:52-59. -/
def workerRunAC : List QueuedJob → List WEvent
  | [] => []
  | j :: rest => workerStepAC j ++ workerRunAC rest

/-- A multi-engine iteration in which the engine writes one chunk of response
bytes and reports the transfer still active. -/
def chunkIter (c : List Nat) : MultiIter :=
  ⟨Except.ok ⟨1, c, none⟩, Except.ok 0⟩

/-- A multi-engine iteration in which the transfer finishes: the engine sets
the status and reports zero active transfers. -/
def finishIter (status : Nat) : MultiIter :=
  ⟨Except.ok ⟨0, [], some status⟩, Except.ok 0⟩

/-- A script for a transfer that completes successfully, delivering the given
byte chunks and then the status. -/
def successScript (chunks : List (List Nat)) (status : Nat) : MultiScript :=
  ⟨Except.ok (), chunks.map chunkIter ++ [finishIter status], Except.ok ()⟩

/-- A fresh descriptor with an empty response sink. -/
def e0 : Easy2 ResponseHandler := ⟨0, ⟨[]⟩, none⟩

/-- Actor-loop iteration whose engine suggests a 5000 ms timeout while the
transfer is still active. -/
def c3Iter1 : ActorIter := ⟨Except.ok ⟨1, [], none⟩, Except.ok (some 5000)⟩

/-- Actor-loop iteration in which the transfer finishes with status 200. -/
def c3Iter2 : ActorIter := ⟨Except.ok ⟨0, [], some 200⟩, Except.ok none⟩

/-- Script for the sleep-duration counterexample: one active advance with a
suggested 5000 ms timeout, then completion. -/
def c3Script : ActorScript := ⟨Except.ok (), [c3Iter1, c3Iter2], Except.ok ()⟩

/-- A concrete easy-engine failure used in taxonomy comparisons. -/
def curlErr7 : CurlError := ⟨7⟩

/-- A script whose registration step (add2) fails. -/
def addFailScript : MultiScript := ⟨Except.error ⟨4, false⟩, [], Except.ok ()⟩

/-- An actor script whose registration step (add2) fails. -/
def addFailScriptMT : ActorScript := ⟨Except.error ⟨4, false⟩, [], Except.ok ()⟩

/-- A job whose blocking task joined, whose transfer failed, and whose caller
dropped the reply receiver. -/
def j0 : QueuedJob := ⟨5, Except.error (Error.engineCurl ⟨1⟩), false, true⟩

/-- A job whose blocking task panicked (join failure). -/
def jPanic : QueuedJob := ⟨0, Except.ok e0, true, false⟩

/-- The worker trace of a concatenation of job lists splits at the
concatenation. -/
theorem workerTrace_append (xs ys : List Nat) :
    workerTrace (xs ++ ys) = workerTrace xs ++ workerTrace ys := by
  induction xs with
  | nil => simp [workerTrace]
  | cons j rest ih => simp [workerTrace, ih]

/-- The actor worker run of a concatenation of job lists splits at the
concatenation. -/
theorem workerRun_append (xs ys : List QueuedJob) :
    workerRun (xs ++ ys) = workerRun xs ++ workerRun ys := by
  induction xs with
  | nil => simp [workerRun]
  | cons j rest ih => simp [workerRun, ih]

/-- The async_curl worker run of a concatenation of job lists splits at the
concatenation. -/
theorem workerRunAC_append (xs ys : List QueuedJob) :
    workerRunAC (xs ++ ys) = workerRunAC xs ++ workerRunAC ys := by
  induction xs with
  | nil => simp [workerRunAC]
  | cons j rest ih => simp [workerRunAC, ih]

/-- On a successful script, the async_curl loop accumulates every written
chunk into the sink and records the final status. -/
theorem multiLoopAC_success (chunks : List (List Nat)) (status : Nat)
    (e : Easy2 ResponseHandler) :
    (multiLoopAC (chunks.map chunkIter ++ [finishIter status]) e).2
      = some (Except.ok ⟨e.config, ⟨e.handler.data ++ chunks.flatten⟩, some status⟩) := by
  induction chunks generalizing e with
  | nil => simp [multiLoopAC, chunkIter, finishIter, applyPerform]
  | cons c cs ih => simp [multiLoopAC, chunkIter, applyPerform, ih, List.append_assoc]

/-- On a script of active advances followed by a completing advance, the
async_curl loop emits a perform/wait pair per active advance, a final
perform, and finishes with the completed descriptor. -/
theorem multiLoopAC_run (pre : List MultiIter) (last : MultiIter)
    (e : Easy2 ResponseHandler)
    (h : ∀ it ∈ pre, ∃ p n, it.perform = Except.ok p ∧ 0 < p.active ∧ it.wait = Except.ok n)
    (hl : ∃ p, last.perform = Except.ok p ∧ p.active = 0) :
    (multiLoopAC (pre ++ [last]) e).1
        = pre.foldr (fun _ acc => MEvent.perform :: MEvent.wait 1000 :: acc) [MEvent.perform]
    ∧ ∃ e2, (multiLoopAC (pre ++ [last]) e).2 = some (Except.ok e2) := by
  induction pre generalizing e with
  | nil =>
      obtain ⟨p, hp, h0⟩ := hl
      exact ⟨by simp [multiLoopAC, hp, h0],
        ⟨applyPerform p e, by simp [multiLoopAC, hp, h0]⟩⟩
  | cons it rest ih =>
      obtain ⟨p, n, hp, hpos, hw⟩ := h it (List.mem_cons_self _ _)
      have hne : ¬ p.active = 0 := Nat.pos_iff_ne_zero.mp hpos
      have hrest := ih (applyPerform p e) (fun it2 hm => h it2 (List.mem_cons_of_mem _ hm))
      constructor
      · simp [multiLoopAC, hp, hw, hne, hrest.1]
      · obtain ⟨e2, h2⟩ := hrest.2
        exact ⟨e2, by simp [multiLoopAC, hp, hw, hne, h2]⟩

/-- Claim C1: a descriptor whose transfer completes successfully is resolved
by send_request to Ok carrying the same descriptor (configuration intact),
with the response bytes and status accumulated in its response sink — on both
the isolated-blocking path (perform_curl) and the cooperative-multiplexed
path (perform_curl_multi). -/
theorem sendRequest_success_returns_descriptor (e : Easy2 ResponseHandler)
    (bytes : List Nat) (status : Nat) (chunks : List (List Nat)) :
    CurlActor.send_request true
        (some (perform_curl (TransferOutcome.success bytes status) e)) e
      = Except.ok ⟨e.config, ⟨e.handler.data ++ bytes⟩, some status⟩
  ∧ AsyncCurl.send_request true
        ((perform_curl_multi (successScript chunks status) e).2) e
      = Except.ok ⟨e.config, ⟨e.handler.data ++ chunks.flatten⟩, some status⟩ := by
  constructor
  · rfl
  · simp [AsyncCurl.send_request, sendRequestModel, perform_curl_multi, successScript,
      multiLoopAC_success]

/-- Claim C2: perform_curl_multi registers the descriptor, then alternates the
non-blocking advance with the engine's bounded wait at a 1-second (1000 ms)
ceiling while transfers remain active, and once the active count reaches zero
deregisters the handle and returns the completed descriptor. -/
theorem perform_curl_multi_steps (s : MultiScript) (pre : List MultiIter)
    (last : MultiIter) (e : Easy2 ResponseHandler)
    (hi : s.iters = pre ++ [last]) (ha : s.add2 = Except.ok ())
    (h : ∀ it ∈ pre, ∃ p n, it.perform = Except.ok p ∧ 0 < p.active ∧ it.wait = Except.ok n)
    (hl : ∃ p, last.perform = Except.ok p ∧ p.active = 0)
    (hr : s.remove2 = Except.ok ()) :
    (perform_curl_multi s e).1
      = MEvent.add2 ::
          (pre.foldr (fun _ acc => MEvent.perform :: MEvent.wait 1000 :: acc) [MEvent.perform])
          ++ [MEvent.remove2]
  ∧ ∃ e2, (perform_curl_multi s e).2 = some (Except.ok e2) := by
  obtain ⟨htr, e2, h2⟩ := multiLoopAC_run pre last e h hl
  constructor
  · simp [perform_curl_multi, ha, hi, hr, htr, h2]
  · exact ⟨e2, by simp [perform_curl_multi, ha, hi, hr, h2]⟩

/-- Witness for claim C2 at a concrete script: one active advance, then
completion. -/
theorem perform_curl_multi_steps_witness :
    (perform_curl_multi (successScript [[9]] 200) e0).1
      = [MEvent.add2, MEvent.perform, MEvent.wait 1000, MEvent.perform, MEvent.remove2]
  ∧ ∃ e2, (perform_curl_multi (successScript [[9]] 200) e0).2 = some (Except.ok e2) := by
  have h := perform_curl_multi_steps (successScript [[9]] 200) [chunkIter [9]]
    (finishIter 200) e0 rfl rfl
    (by
      intro it hit
      have : it = chunkIter [9] := by simpa using hit
      subst this
      exact ⟨⟨1, [9], none⟩, 0, rfl, by decide, rfl⟩)
    ⟨⟨0, [], some 200⟩, rfl, rfl⟩ rfl
  exact h

/-- Claim C3, counterexample: with the engine suggesting a 5000 ms timeout
after the first advance, the loop sleeps 200 ms, not the suggested duration,
so the wait between successive advance calls does not equal the
engine-suggested timeout. -/
theorem perform_curl_sleep_not_suggested_timeout :
    (perform_curl_mt c3Script e0).1
      = [MEvent.add2, MEvent.perform, MEvent.getTimeout, MEvent.sleep 200,
         MEvent.perform, MEvent.remove2]
  ∧ MEvent.sleep 5000 ∉ (perform_curl_mt c3Script e0).1 := by
  constructor
  · rfl
  · decide

/-- Claim C3, amended: in the multi-feature perform_curl loop the
engine-suggested timeout (with a 2000 ms default when none is suggested) only
decides whether a wait happens: when it is nonzero the loop sleeps a fixed
200 ms, when it is zero or the engine signals the retry-advance-immediately
condition the wait is skipped and the loop continues, and any other
engine-reported timeout error terminates the loop and is wrapped into the
Error taxonomy. -/
theorem perform_curl_sleep_policy (it : ActorIter) (rest : List ActorIter)
    (e : Easy2 ResponseHandler) (p : PerformOk)
    (hp : it.perform = Except.ok p) (ha : p.active ≠ 0) :
    (∀ d : Option Nat, it.getTimeout = Except.ok d → d.getD 2000 ≠ 0 →
       actorLoop (it :: rest) e =
         (MEvent.perform :: MEvent.getTimeout :: MEvent.sleep 200 ::
            (actorLoop rest (applyPerform p e)).1,
          (actorLoop rest (applyPerform p e)).2))
  ∧ (∀ d : Option Nat, it.getTimeout = Except.ok d → d.getD 2000 = 0 →
       actorLoop (it :: rest) e =
         (MEvent.perform :: MEvent.getTimeout :: (actorLoop rest (applyPerform p e)).1,
          (actorLoop rest (applyPerform p e)).2))
  ∧ (∀ m : MultiError, it.getTimeout = Except.error m → m.isCallPerform = true →
       actorLoop (it :: rest) e =
         (MEvent.perform :: MEvent.getTimeout :: (actorLoop rest (applyPerform p e)).1,
          (actorLoop rest (applyPerform p e)).2))
  ∧ (∀ m : MultiError, it.getTimeout = Except.error m → m.isCallPerform = false →
       actorLoop (it :: rest) e
         = ([MEvent.perform, MEvent.getTimeout], some (Except.error m)))
  ∧ (∀ m : MultiError, it.getTimeout = Except.error m → m.isCallPerform = false →
       ∀ s : ActorScript, s.add2 = Except.ok () → s.iters = it :: rest →
       perform_curl_mt s e
         = ([MEvent.add2, MEvent.perform, MEvent.getTimeout],
            some (Except.error (Error.engineMulti m)))) := by
  refine ⟨?_, ?_, ?_, ?_, ?_⟩
  · intro d hd hnz
    simp [actorLoop, hp, ha, hd, hnz]
  · intro d hd hz
    simp [actorLoop, hp, ha, hd, hz]
  · intro m hm hcp
    simp [actorLoop, hp, ha, hm, hcp]
  · intro m hm hcp
    simp [actorLoop, hp, ha, hm, hcp]
  · intro m hm hcp s hadd hits
    have hloop : actorLoop (it :: rest) e
        = ([MEvent.perform, MEvent.getTimeout], some (Except.error m)) := by
      simp [actorLoop, hp, ha, hm, hcp]
    simp [perform_curl_mt, hadd, hits, hloop]

/-- Witness for the amended claim C3: concrete iteration with a suggested
5000 ms timeout, established through the sleep-policy theorem. -/
theorem perform_curl_sleep_policy_witness :
    c3Iter1.perform = Except.ok ⟨1, [], none⟩
  ∧ (⟨1, [], none⟩ : PerformOk).active ≠ 0
  ∧ actorLoop [c3Iter1, c3Iter2] e0 =
      (MEvent.perform :: MEvent.getTimeout :: MEvent.sleep 200 ::
         (actorLoop [c3Iter2] (applyPerform ⟨1, [], none⟩ e0)).1,
       (actorLoop [c3Iter2] (applyPerform ⟨1, [], none⟩ e0)).2) := by
  refine ⟨rfl, by decide, ?_⟩
  exact (perform_curl_sleep_policy c3Iter1 [c3Iter2] e0 ⟨1, [], none⟩ rfl
    (by decide)).1 (some 5000) rfl (by decide)

/-- Claim C4: both request queues have capacity exactly 1, and the worker
loop executes jobs strictly sequentially in admission order — each job's
begin/complete pair is adjacent in the trace, with every earlier-enqueued
job's pair entirely before every later-enqueued job's pair. -/
theorem dispatcher_capacity_and_fifo (pre mid post : List Nat) (a b : Nat) :
    CurlActor.queueCapacity = 1
  ∧ AsyncCurl.queueCapacity = 1
  ∧ workerTrace (pre ++ a :: (mid ++ b :: post))
      = workerTrace pre
          ++ [JobEvent.jobBegin a, JobEvent.jobComplete a]
          ++ workerTrace mid
          ++ [JobEvent.jobBegin b, JobEvent.jobComplete b]
          ++ workerTrace post := by
  refine ⟨rfl, rfl, ?_⟩
  simp [workerTrace_append, workerTrace]

/-- Claim C5: send_request surfaces channel failures as typed error values —
a terminated worker loop makes the enqueue step resolve to the queue-closed
variant, and a reply sender dropped without sending makes the reply await
resolve to the reply-channel-closed variant — on both dispatchers; the model
functions are total, so neither path panics or hangs. -/
theorem send_request_channel_failures (e : Easy2 ResponseHandler)
    (reply : Option (Except Error (Easy2 ResponseHandler)))
    (replyAC : Option (Except AsyncCurlError (Easy2 ResponseHandler))) :
    CurlActor.send_request false reply e = Except.error Error.queueClosed
  ∧ CurlActor.send_request true none e = Except.error Error.replyChannelClosed
  ∧ AsyncCurl.send_request false replyAC e = Except.error AsyncCurlError.queueClosed
  ∧ AsyncCurl.send_request true none e = Except.error AsyncCurlError.replyChannelClosed :=
  ⟨rfl, rfl, rfl, rfl⟩

/-- Claim C6: the worker loop never terminates early on a single job's
failure — every queued job contributes its own step to the run regardless of
the jobs around it, a job's step is never empty, the step does not depend on
whether the job's transfer succeeded or failed, and a dropped reply receiver
is logged rather than propagated — for both worker loops. -/
theorem worker_loop_resilient (pre post : List QueuedJob) (j : QueuedJob) :
    workerRun (pre ++ j :: post) = workerRun pre ++ workerStep j ++ workerRun post
  ∧ workerRunAC (pre ++ j :: post) = workerRunAC pre ++ workerStepAC j ++ workerRunAC post
  ∧ workerStep j ≠ []
  ∧ workerStepAC j ≠ []
  ∧ (∀ r, workerStep { j with result := r } = workerStep j)
  ∧ (∀ r, workerStepAC { j with result := r } = workerStepAC j)
  ∧ (j.joins = true → j.receiverAlive = false →
       workerStep j = [WEvent.processed j.id, WEvent.logDroppedReceiver j.id])
  ∧ (j.receiverAlive = false →
       workerStepAC j = [WEvent.processed j.id, WEvent.logDroppedReceiver j.id]) := by
  refine ⟨?_, ?_, ?_, ?_, ?_, ?_, ?_, ?_⟩
  · rw [workerRun_append]
    simp [workerRun]
  · rw [workerRunAC_append]
    simp [workerRunAC]
  · unfold workerStep
    split <;> simp
  · unfold workerStepAC
    simp
  · intro r
    simp [workerStep]
  · intro r
    simp [workerStepAC]
  · intro hj hr
    simp [workerStep, hj, hr]
  · intro hr
    simp [workerStepAC, hr]

/-- Witness for claim C6 at a concrete job whose transfer failed and whose
caller dropped the reply receiver. -/
theorem worker_loop_resilient_witness :
    workerRun ([] ++ j0 :: []) = workerRun [] ++ workerStep j0 ++ workerRun []
  ∧ workerRunAC ([] ++ j0 :: []) = workerRunAC [] ++ workerStepAC j0 ++ workerRunAC []
  ∧ workerStep j0 ≠ []
  ∧ workerStepAC j0 ≠ []
  ∧ (∀ r, workerStep { j0 with result := r } = workerStep j0)
  ∧ (∀ r, workerStepAC { j0 with result := r } = workerStepAC j0)
  ∧ (j0.joins = true → j0.receiverAlive = false →
       workerStep j0 = [WEvent.processed j0.id, WEvent.logDroppedReceiver j0.id])
  ∧ (j0.receiverAlive = false →
       workerStepAC j0 = [WEvent.processed j0.id, WEvent.logDroppedReceiver j0.id]) :=
  worker_loop_resilient [] [] j0

/-- Claim C7, counterexample: on a join failure (the blocking task panicked)
the actor worker loop only logs; no value is pushed into the reply channel,
so no error of the taxonomy is produced from the join failure itself — the
caller instead observes the reply channel closing. -/
theorem join_failure_only_logged :
    sentReply jPanic = none
  ∧ workerStep jPanic = [WEvent.logJoinError 0]
  ∧ CurlActor.send_request true (sentReply jPanic) e0
      = Except.error Error.replyChannelClosed :=
  ⟨rfl, rfl, rfl⟩

/-- Claim C7, amended: a join failure of the dedicated blocking thread is
logged by the worker loop and the reply sender is dropped without sending;
the caller's await of the reply then resolves to the reply-channel-closed
error, so the failure is not silently lost, but it is not converted into a
dedicated ThreadJoinError value either. -/
theorem join_failure_surfaces_as_reply_closed (j : QueuedJob)
    (e : Easy2 ResponseHandler) (h : j.joins = false) :
    workerStep j = [WEvent.logJoinError j.id]
  ∧ sentReply j = none
  ∧ CurlActor.send_request true (sentReply j) e
      = Except.error Error.replyChannelClosed := by
  refine ⟨?_, ?_, ?_⟩
  · simp [workerStep, h]
  · simp [sentReply, h]
  · simp [sentReply, h, CurlActor.send_request, sendRequestModel]

/-- Witness for the amended claim C7 at the concrete panicking job. -/
theorem join_failure_surfaces_witness :
    jPanic.joins = false
  ∧ (workerStep jPanic = [WEvent.logJoinError jPanic.id]
     ∧ sentReply jPanic = none
     ∧ CurlActor.send_request true (sentReply jPanic) e0
         = Except.error Error.replyChannelClosed) :=
  ⟨rfl, join_failure_surfaces_as_reply_closed jPanic e0 rfl⟩

/-- Claim C8, counterexample: the isolated-blocking path surfaces an
easy-engine error kind (from `easy2.perform()`, actor.rs:193) that the
cooperative-multiplexed path's error type never carries, so the two
send_request operations do not have the same error taxonomy. -/
theorem error_taxonomies_differ :
    perform_curl (TransferOutcome.failure curlErr7) e0
      = Except.error (Error.engineCurl curlErr7)
  ∧ (Error.engineCurl curlErr7).kind = ErrKind.engineCurl
  ∧ (∀ m : AsyncCurlError, m.kind ≠ ErrKind.engineCurl) := by
  refine ⟨rfl, rfl, ?_⟩
  intro m
  cases m <;> simp [AsyncCurlError.kind]

/-- Claim C8, amended: the two send_request operations take the same input
type and succeed with the same descriptor type, and their error taxonomies
agree on the queue-closed, reply-channel-closed and multi-engine kinds; they
are not identical, because the isolated-blocking dispatcher can additionally
surface easy-engine errors, a kind the multiplexed dispatcher's error type
never represents. -/
theorem contracts_agree_up_to_engine_kind :
    (∀ m : AsyncCurlError,
       m.kind ∈ [ErrKind.queueClosed, ErrKind.replyChannelClosed, ErrKind.engineMulti])
  ∧ (∀ k ∈ [ErrKind.queueClosed, ErrKind.replyChannelClosed, ErrKind.engineMulti],
       ∃ m : Error, m.kind = k)
  ∧ (∃ m : Error, ∀ m2 : AsyncCurlError, m2.kind ≠ m.kind) := by
  refine ⟨?_, ?_, ?_⟩
  · intro m
    cases m <;> simp [AsyncCurlError.kind]
  · intro k hk
    simp only [List.mem_cons, List.not_mem_nil, or_false] at hk
    rcases hk with h | h | h
    · exact ⟨Error.queueClosed, by simp [h, Error.kind]⟩
    · exact ⟨Error.replyChannelClosed, by simp [h, Error.kind]⟩
    · exact ⟨Error.engineMulti ⟨0, false⟩, by simp [h, Error.kind]⟩
  · refine ⟨Error.engineCurl curlErr7, ?_⟩
    intro m2
    cases m2 <;> simp [AsyncCurlError.kind, Error.kind]

/-- Witness for the amended claim C8: a concrete actor-error kind with no
counterpart in the multiplexed taxonomy. -/
theorem contracts_agree_witness :
    ∃ m : Error, ∀ m2 : AsyncCurlError, m2.kind ≠ m.kind :=
  contracts_agree_up_to_engine_kind.2.2

/-- Claim C9, counterexample: the multiplexed dispatcher handle (AsyncCurl,
async_curl.rs:30-35) has no Clone derive or impl, so not every dispatcher
handle is cloneable. -/
theorem asyncCurl_not_cloneable : AsyncCurl.hasCloneImpl = false := rfl

/-- Claim C9, amended: the actor dispatcher handle (CurlActor) is cloneable
and every clone shares the same underlying request queue and worker task
(fan-in semantics), so submissions through any clone are serialized by the
one worker; the multiplexed dispatcher handle (AsyncCurl) implements no
clone. -/
theorem curlActor_clone_shares_queue (H : Type) (a : CurlActor H) :
    CurlActor.hasCloneImpl = true
  ∧ (CurlActor.clone a).request_sender = a.request_sender
  ∧ (CurlActor.clone a).request_sender.channel = a.request_sender.channel
  ∧ AsyncCurl.hasCloneImpl = false :=
  ⟨rfl, rfl, rfl, rfl⟩

/-- Claim C10: in both multiplexed execution paths, a failed registration
(add2) makes the function return the wrapped registration error immediately —
the trace shows no further engine call — and the error outcome carries only
the engine error, never the descriptor that the registration call consumed. -/
theorem add2_failure_returns_error_immediately (s : MultiScript)
    (sa : ActorScript) (e : Easy2 ResponseHandler) (m : MultiError)
    (h : s.add2 = Except.error m) (h2 : sa.add2 = Except.error m) :
    perform_curl_multi s e
      = ([MEvent.add2], some (Except.error (AsyncCurlError.engineMulti m)))
  ∧ perform_curl_mt sa e
      = ([MEvent.add2], some (Except.error (Error.engineMulti m))) := by
  constructor
  · simp [perform_curl_multi, h]
  · simp [perform_curl_mt, h2]

/-- Witness for claim C10 at concrete failing-registration scripts. -/
theorem add2_failure_witness :
    addFailScript.add2 = Except.error ⟨4, false⟩
  ∧ perform_curl_multi addFailScript e0
      = ([MEvent.add2], some (Except.error (AsyncCurlError.engineMulti ⟨4, false⟩)))
  ∧ perform_curl_mt addFailScriptMT e0
      = ([MEvent.add2], some (Except.error (Error.engineMulti ⟨4, false⟩))) := by
  have h := add2_failure_returns_error_immediately addFailScript addFailScriptMT e0
    ⟨4, false⟩ rfl rfl
  exact ⟨rfl, h.1, h.2⟩

end AsyncCurlSpec
